import Mathlib

/-!
Shallow embedding of the HammerTime packet-sniffer control layer
(`src/src/PacketSniffer.c`, with types from `src/include/PacketSniffer.h`),
together with theorems settling the specification claims about it.

Modelling conventions:
* the opaque `pcap_t *` handle is `Option Nat` (`none` = NULL, `some n` = a
  concrete non-null handle);
* the `PacketHandler` function pointer is `Option Nat` (`none` = NULL,
  `some n` = a concrete handler value);
* the three file-scope globals `handle`, `globalHandler`, `is_running`
  form `SnifferState`;
* C `int` values are `Int`; the implicit `u_int`-to-`int` conversion that
  happens when `header->len` / `header->caplen` are passed to `int`
  parameters is made explicit by `u32ToCInt` (two's-complement wrap);
* the external capture engine (libpcap) is an environment: the result of
  `pcap_open_live` and the return value of `pcap_loop` are inputs.
-/

namespace HammerTime

/-- Result codes `SniffResult` from `include/PacketSniffer.h`. -/
inductive SniffResult where
  | SNIFF_OK
  | SNIFF_ERROR_NULL_PARAM
  | SNIFF_ERROR_INVALID_DEVICE
  | SNIFF_ERROR_ALREADY_RUNNING
  | SNIFF_ERROR_PCAP_OPEN
  | SNIFF_ERROR_NOT_RUNNING
deriving DecidableEq, Repr

/-- The constant `MAX_PACKET_SIZE` = 64 * 1024 from `include/PacketSniffer.h`. -/
def MAX_PACKET_SIZE : Nat := 64 * 1024

/-- The C conversion of a `u_int` (32-bit unsigned) value to `int`
(32-bit two's complement): reduce mod 2^32, then values at or above 2^31
wrap to negatives. -/
def u32ToCInt (n : Nat) : Int :=
  let m : Nat := n % 2 ^ 32
  if m < 2 ^ 31 then (m : Int) else (m : Int) - 2 ^ 32

/-- The file-scope state of `PacketSniffer.c`: globals `handle`,
`globalHandler` and `is_running`. -/
structure SnifferState where
  handle : Option Nat
  globalHandler : Option Nat
  is_running : Bool
deriving DecidableEq, Repr

/-- The initial state of the translation unit: `handle = NULL`,
`globalHandler = NULL`, `is_running = false`. -/
def initState : SnifferState :=
  { handle := none, globalHandler := none, is_running := false }

/-- Function `is_valid_packet_length` (PacketSniffer.c, lines 15-17):
`length > 0 && length <= MAX_PACKET_SIZE`. -/
def is_valid_packet_length (length : Int) : Bool :=
  length > 0 && length ≤ (MAX_PACKET_SIZE : Int)

/-- The character test inside `is_valid_device_name` (lines 66-74):
alphanumeric ASCII, dot, dash or underscore. -/
def isAllowedDeviceChar (c : Char) : Bool :=
  (('a' ≤ c && c ≤ 'z') ||
   ('A' ≤ c && c ≤ 'Z') ||
   ('0' ≤ c && c ≤ '9') ||
   c = '.' || c = '-' || c = '_')

/-- Function `is_valid_device_name` (PacketSniffer.c, lines 52-77). The C string is
modelled as `Option String`: `none` is a NULL pointer, and `strlen` /
per-character iteration become `String.length` / `List.all` over the
character data. -/
def is_valid_device_name : Option String → Bool
  | none => false
  | some d =>
    if d.length = 0 ∨ d.length > 64 then false
    else d.data.all isAllowedDeviceChar

/-- The specification's allowed-character predicate for claim C5: ASCII
letter (either case), digit, dot, dash or underscore. -/
def specDeviceChar (c : Char) : Prop :=
  ('A' ≤ c ∧ c ≤ 'Z') ∨ ('a' ≤ c ∧ c ≤ 'z') ∨ ('0' ≤ c ∧ c ≤ '9') ∨
    c = '.' ∨ c = '-' ∨ c = '_'

instance (c : Char) : Decidable (specDeviceChar c) := by
  unfold specDeviceChar; infer_instance

lemma allowedDeviceChar_iff (c : Char) :
    isAllowedDeviceChar c = true ↔ specDeviceChar c := by
  unfold isAllowedDeviceChar specDeviceChar
  simp only [Bool.or_eq_true, Bool.and_eq_true, decide_eq_true_eq]
  tauto

/-- C5: device validation accepts a string `d` iff `1 ≤ len d ≤ 64` and every
character of `d` is an ASCII letter, digit, dot, dash or underscore. The
embedded validator is a pure function, so it has no side effects. -/
theorem device_validation_iff (d : String) :
    is_valid_device_name (some d) = true ↔
      (1 ≤ d.length ∧ d.length ≤ 64 ∧ ∀ c ∈ d.data, specDeviceChar c) := by
  show (if d.length = 0 ∨ d.length > 64 then false
      else d.data.all isAllowedDeviceChar) = true ↔ _
  by_cases hlen : d.length = 0 ∨ d.length > 64
  · rw [if_pos hlen]
    constructor
    · intro h
      exact Bool.noConfusion h
    · rintro ⟨h1, h64, -⟩
      exact absurd hlen (by omega)
  · rw [if_neg hlen]
    push_neg at hlen
    simp only [List.all_eq_true, allowedDeviceChar_iff]
    constructor
    · intro h
      exact ⟨by omega, by omega, h⟩
    · rintro ⟨-, -, h⟩
      exact h

/-- Witness for C5: the theorem applied at the concrete device name "en0",
which validation accepts. -/
theorem device_validation_iff_witness :
    is_valid_device_name (some "en0") = true :=
  (device_validation_iff "en0").mpr (by decide)

/-- The C `struct pcap_pkthdr`, restricted to the two fields the code reads:
`len` (the claimed on-the-wire length) and `caplen` (the length actually
captured into the buffer). Both are `bpf_u_int32` in C, so they are `Nat`
values below `2 ^ 32`; that bound appears as a hypothesis where it matters. -/
structure PcapPkthdr where
  len : Nat
  caplen : Nat
deriving DecidableEq, Repr

/-- The observable outcome of one run of `packet_callback`:
`delivery = some (h, p, n)` iff the registered handler `h` was invoked with
packet pointer `p` and length argument `n`; `logged` iff a diagnostic line
was written to stderr; `state` is the (unchanged) global state afterwards. -/
structure CallbackResult where
  delivery : Option (Nat × Nat × Int)
  logged : Bool
  state : SnifferState
deriving DecidableEq, Repr

/-- Function `packet_callback` (PacketSniffer.c, lines 20-49). The `header` and
`packet` pointers are `Option`s (`none` = NULL); the packet bytes pointer is
an abstract `Nat` identity. `header->len` is a `u_int` implicitly converted
to `int` at the call `is_valid_packet_length(header->len)`, and
`header->caplen` is explicitly cast to `int` at the handler call — both
conversions are `u32ToCInt`. The truncation check (lines 34-38) only logs;
the handler is still called afterwards with the captured length. -/
def packet_callback : Option PcapPkthdr → Option Nat → SnifferState → CallbackResult
  | none, _, st => ⟨none, false, st⟩
  | some _, none, st => ⟨none, false, st⟩
  | some hdr, some pkt, st =>
    if is_valid_packet_length (u32ToCInt hdr.len) = false then
      ⟨none, true, st⟩
    else
      match st.globalHandler with
      | none => ⟨none, decide (hdr.caplen < hdr.len), st⟩
      | some h =>
        ⟨some (h, pkt, u32ToCInt hdr.caplen), decide (hdr.caplen < hdr.len), st⟩

lemma u32ToCInt_small (n : Nat) (h : n < 2 ^ 31) : u32ToCInt n = (n : Int) := by
  unfold u32ToCInt
  have hm : n % 2 ^ 32 = n := Nat.mod_eq_of_lt (by omega)
  simp only [hm]
  rw [if_pos h]

lemma valid_length_of_bounds (n : Nat) (h1 : 1 ≤ n) (h2 : n ≤ MAX_PACKET_SIZE) :
    is_valid_packet_length (u32ToCInt n) = true := by
  have hs : u32ToCInt n = (n : Int) := u32ToCInt_small n (by
    unfold MAX_PACKET_SIZE at h2; omega)
  unfold is_valid_packet_length
  rw [hs]
  simp only [Bool.and_eq_true, decide_eq_true_eq]
  constructor
  · exact_mod_cast h1
  · exact_mod_cast h2

lemma invalid_length_of_out_of_range (n : Nat) (hw : n < 2 ^ 32)
    (h : n = 0 ∨ n > MAX_PACKET_SIZE) :
    is_valid_packet_length (u32ToCInt n) = false := by
  unfold is_valid_packet_length u32ToCInt
  have hm : n % 2 ^ 32 = n := Nat.mod_eq_of_lt hw
  simp only [hm]
  unfold MAX_PACKET_SIZE at h ⊢
  by_cases hc : n < 2 ^ 31
  · rw [if_pos hc]
    simp only [Bool.and_eq_false_iff, decide_eq_false_iff_not, not_lt, not_le]
    rcases h with h | h
    · left; simp [h]
    · right; exact_mod_cast (by omega : (64 * 1024 : Int) < (n : Int))
  · rw [if_neg hc]
    simp only [Bool.and_eq_false_iff, decide_eq_false_iff_not, not_lt, not_le]
    left
    push_neg at hc
    have : (2 ^ 31 : Int) ≤ (n : Int) := by exact_mod_cast hc
    omega

/-- C3: a packet event whose claimed length `len` is `0` or exceeds
`MAX_PACKET_SIZE` is dropped (the handler is never invoked for it); an event
with `1 ≤ len ≤ MAX_PACKET_SIZE` is delivered to the registered handler with
exactly the captured length `caplen` — taken from the `caplen` field, never
the claimed `len` field — and that delivered length never exceeds
`MAX_PACKET_SIZE`. The hypothesis `caplen ≤ len` is the capture engine's
guarantee (the spec glossary: the claimed length may exceed the captured
length, not vice versa), and `len < 2 ^ 32` is the width of the C field. -/
theorem packet_length_gate (hdr : PcapPkthdr) (pkt : Nat) (st : SnifferState)
    (h : Nat) (hh : st.globalHandler = some h) (hcap : hdr.caplen ≤ hdr.len)
    (hw : hdr.len < 2 ^ 32) :
    ((hdr.len = 0 ∨ hdr.len > MAX_PACKET_SIZE) →
      (packet_callback (some hdr) (some pkt) st).delivery = none) ∧
    ((1 ≤ hdr.len ∧ hdr.len ≤ MAX_PACKET_SIZE) →
      (packet_callback (some hdr) (some pkt) st).delivery
          = some (h, pkt, (hdr.caplen : Int)) ∧
        hdr.caplen ≤ MAX_PACKET_SIZE) := by
  constructor
  · intro hbad
    have hiv := invalid_length_of_out_of_range hdr.len hw hbad
    simp only [packet_callback]
    rw [if_pos hiv]
  · rintro ⟨h1, h2⟩
    have hv := valid_length_of_bounds hdr.len h1 h2
    have hcap64 : hdr.caplen ≤ MAX_PACKET_SIZE := le_trans hcap h2
    have hci : u32ToCInt hdr.caplen = (hdr.caplen : Int) := by
      apply u32ToCInt_small
      unfold MAX_PACKET_SIZE at hcap64
      omega
    refine ⟨?_, hcap64⟩
    simp only [packet_callback]
    rw [if_neg (by rw [hv]; simp), hh, hci]

/-- Witness for C3: the theorem applied at the concrete event
`len = 100, caplen = 80` in a state whose registered handler is `5`; the
oversize branch is exercised by the amended C4 development below, and the
in-range branch delivers `(5, 7, 80)`. -/
theorem packet_length_gate_witness :
    (packet_callback (some ⟨100, 80⟩) (some 7)
        { handle := some 1, globalHandler := some 5, is_running := true }).delivery
      = some (5, 7, (80 : Int)) :=
  ((packet_length_gate ⟨100, 80⟩ 7
      { handle := some 1, globalHandler := some 5, is_running := true }
      5 rfl (by decide) (by decide)).2 ⟨by decide, by decide⟩).1

/-- Counterexample for C4: a truncated event (claimed length 100, captured
length 50) with a registered handler is NOT dropped — `packet_callback`
logs the truncation warning but still invokes the handler (with the captured
length 50), contradicting the claim that the handler is never invoked for a
truncated event. -/
theorem truncated_event_still_delivered :
    (packet_callback (some ⟨100, 50⟩) (some 7)
        { handle := some 1, globalHandler := some 2, is_running := true })
      = ⟨some (2, 7, (50 : Int)), true,
          { handle := some 1, globalHandler := some 2, is_running := true }⟩ := by
  decide

/-- C4 (amended): for every truncated packet event (captured length below the
claimed length) whose claimed length passes the length gate, the callback
emits a diagnostic log and still delivers the event to the registered handler
with the captured length; the session state is unchanged (no abort) and no
caller-visible error value exists on this path. -/
theorem truncated_event_logged_and_delivered (hdr : PcapPkthdr) (pkt : Nat)
    (st : SnifferState) (h : Nat) (hh : st.globalHandler = some h)
    (htr : hdr.caplen < hdr.len) (h1 : 1 ≤ hdr.len)
    (h2 : hdr.len ≤ MAX_PACKET_SIZE) :
    (packet_callback (some hdr) (some pkt) st).logged = true ∧
    (packet_callback (some hdr) (some pkt) st).delivery
        = some (h, pkt, (hdr.caplen : Int)) ∧
    (packet_callback (some hdr) (some pkt) st).state = st := by
  have hv := valid_length_of_bounds hdr.len h1 h2
  have hci : u32ToCInt hdr.caplen = (hdr.caplen : Int) := by
    apply u32ToCInt_small
    unfold MAX_PACKET_SIZE at h2
    omega
  simp only [packet_callback]
  rw [if_neg (by rw [hv]; simp), hh, hci]
  refine ⟨by simp [htr], rfl, rfl⟩

/-- Witness for C4's amended theorem: the truncated event `len = 100,
caplen = 50` with registered handler `2` is logged and delivered with
length 50. -/
theorem truncated_event_logged_and_delivered_witness :
    (packet_callback (some ⟨100, 50⟩) (some 7)
        { handle := some 1, globalHandler := some 2, is_running := true }).logged
      = true :=
  (truncated_event_logged_and_delivered ⟨100, 50⟩ 7
      { handle := some 1, globalHandler := some 2, is_running := true } 2
      rfl (by decide) (by decide) (by decide)).1

/-- C10: when the engine hands `packet_callback` a NULL header pointer or a
NULL packet pointer, the callback returns immediately: no handler invocation,
no diagnostic, and the session state is unchanged. -/
theorem callback_null_pointer_guard (hdr : Option PcapPkthdr)
    (pkt : Option Nat) (st : SnifferState) (hnull : hdr = none ∨ pkt = none) :
    packet_callback hdr pkt st = ⟨none, false, st⟩ := by
  rcases hnull with rfl | rfl
  · simp only [packet_callback]
  · cases hdr <;> simp only [packet_callback]

/-- Witness for C10: the theorem applied to a NULL header alongside a
non-null packet pointer, in a state with a live session. -/
theorem callback_null_pointer_guard_witness :
    packet_callback none (some 3)
        { handle := some 1, globalHandler := some 2, is_running := true }
      = ⟨none, false,
          { handle := some 1, globalHandler := some 2, is_running := true }⟩ :=
  callback_null_pointer_guard none (some 3)
    { handle := some 1, globalHandler := some 2, is_running := true }
    (Or.inl rfl)

/-- The capture engine as an environment for one `start_sniffing` call: the
value `pcap_open_live` returns (`none` = NULL) and the value `pcap_loop`
returns once it unblocks (`0` clean end, `-2` after `pcap_breakloop`, `-1`
loop-internal error). -/
structure EngineEnv where
  openResult : Option Nat
  loopResult : Int
deriving DecidableEq, Repr

/-- Function `start_sniffing` (PacketSniffer.c, lines 79-161) as a whole-call
function: given the arguments, the engine's behaviour and the global state
at entry, it yields the returned `SniffResult` and the global state when the
call returns. Intermediate states follow the source: `st1` after the handler
is recorded (line 107), `st2` after the global `handle` receives the
`pcap_open_live` result (line 115), `st3` after `is_running` is set
(line 131), and the cleanup block (lines 139-158) closes the handle and
clears everything. Packet deliveries during the loop are modelled separately
by `packet_callback` applied to `st3`. -/
def start_sniffing : Option String → Option Nat → EngineEnv → SnifferState →
    SniffResult × SnifferState
  | none, _, _, st => (.SNIFF_ERROR_NULL_PARAM, st)
  | some _, none, _, st => (.SNIFF_ERROR_NULL_PARAM, st)
  | some d, some h, env, st =>
    if is_valid_device_name (some d) = false then
      (.SNIFF_ERROR_INVALID_DEVICE, st)
    else if st.is_running = true then
      (.SNIFF_ERROR_ALREADY_RUNNING, st)
    else
      let st1 : SnifferState := { st with globalHandler := some h }
      let st2 : SnifferState := { st1 with handle := env.openResult }
      match env.openResult with
      | none =>
        (.SNIFF_ERROR_PCAP_OPEN,
         { st2 with globalHandler := none, is_running := false })
      | some _ =>
        let st3 : SnifferState := { st2 with is_running := true }
        let st4 : SnifferState :=
          { st3 with handle := none, globalHandler := none, is_running := false }
        ((if env.loopResult = 0 ∨ env.loopResult = -2 then .SNIFF_OK
          else .SNIFF_ERROR_PCAP_OPEN), st4)

/-- The observable outcome of one `stop_sniffing` call: the returned code,
the global state afterwards, and which engine primitives were invoked
(`breakIssued` = `pcap_breakloop`, `closeIssued` = `pcap_close`). -/
structure StopOutcome where
  result : SniffResult
  state : SnifferState
  breakIssued : Bool
  closeIssued : Bool
deriving DecidableEq, Repr

/-- Function `stop_sniffing` (PacketSniffer.c, lines 163-180): under the lock, if not
running or the handle is NULL return `SNIFF_ERROR_NOT_RUNNING`; otherwise
call `pcap_breakloop` and return `SNIFF_OK`. It never calls `pcap_close` and
never writes any global. -/
def stop_sniffing (st : SnifferState) : StopOutcome :=
  if st.is_running = false ∨ st.handle = none then
    ⟨.SNIFF_ERROR_NOT_RUNNING, st, false, false⟩
  else
    ⟨.SNIFF_OK, st, true, false⟩

/-- Function `is_sniffing_active` (PacketSniffer.c, lines 182-187): under the lock,
`is_running && handle != NULL`. -/
def is_sniffing_active (st : SnifferState) : Bool :=
  st.is_running && st.handle.isSome

/-- C7: `stop_sniffing` in the Idle state (running flag clear) returns
`SNIFF_ERROR_NOT_RUNNING`, issues no engine call and changes no state; in
the Active state (running flag set, handle present) it issues only the
asynchronous `pcap_breakloop`, returns `SNIFF_OK`, and leaves handle,
handler and running flag unchanged — in particular it never calls
`pcap_close`. -/
theorem stop_frame_conditions (st : SnifferState) :
    (st.is_running = false →
      stop_sniffing st = ⟨.SNIFF_ERROR_NOT_RUNNING, st, false, false⟩) ∧
    (st.is_running = true → st.handle.isSome = true →
      stop_sniffing st = ⟨.SNIFF_OK, st, true, false⟩) := by
  constructor
  · intro h
    unfold stop_sniffing
    rw [if_pos (Or.inl h)]
  · intro h hh
    unfold stop_sniffing
    rw [if_neg]
    rintro (h2 | h2)
    · rw [h] at h2
      exact Bool.noConfusion h2
    · rw [h2] at hh
      exact Bool.noConfusion hh

/-- Witness for C7: the theorem applied at the concrete Idle state and at a
concrete Active state. -/
theorem stop_frame_conditions_witness :
    stop_sniffing initState = ⟨.SNIFF_ERROR_NOT_RUNNING, initState, false, false⟩ ∧
    stop_sniffing { handle := some 3, globalHandler := some 4, is_running := true }
      = ⟨.SNIFF_OK,
          { handle := some 3, globalHandler := some 4, is_running := true },
          true, false⟩ :=
  ⟨(stop_frame_conditions initState).1 rfl,
   (stop_frame_conditions
      { handle := some 3, globalHandler := some 4, is_running := true }).2 rfl rfl⟩

/-- C9: when `start_sniffing` passes validation and claims the session but
`pcap_open_live` fails, the recorded handler is rolled back and the call
returns `SNIFF_ERROR_PCAP_OPEN` with the state fully Idle (no handle, no
handler, running flag clear). -/
theorem open_failure_rollback (d : String) (h : Nat) (env : EngineEnv)
    (st : SnifferState) (hv : is_valid_device_name (some d) = true)
    (hr : st.is_running = false) (ho : env.openResult = none) :
    start_sniffing (some d) (some h) env st
      = (.SNIFF_ERROR_PCAP_OPEN, initState) := by
  simp only [start_sniffing]
  rw [if_neg (by rw [hv]; simp), if_neg (by rw [hr]; simp), ho]
  rfl

/-- Witness for C9: device "en0", handler 1, failing open, from the initial
state. -/
theorem open_failure_rollback_witness :
    start_sniffing (some "en0") (some 1) ⟨none, 0⟩ initState
      = (.SNIFF_ERROR_PCAP_OPEN, initState) :=
  open_failure_rollback "en0" 1 ⟨none, 0⟩ initState (by decide) rfl rfl

lemma start_from_init_state_and_result (device : Option String)
    (handler : Option Nat) (env : EngineEnv) :
    (start_sniffing device handler env initState).2 = initState ∧
    (start_sniffing device handler env initState).1
      ≠ SniffResult.SNIFF_ERROR_ALREADY_RUNNING := by
  match device, handler with
  | none, _ =>
    exact ⟨rfl, fun hc => SniffResult.noConfusion hc⟩
  | some d, none =>
    exact ⟨rfl, fun hc => SniffResult.noConfusion hc⟩
  | some d, some h =>
    by_cases hv : is_valid_device_name (some d) = false
    · simp only [start_sniffing]
      rw [if_pos hv]
      exact ⟨rfl, fun hc => SniffResult.noConfusion hc⟩
    · cases hoe : env.openResult with
      | none =>
        simp only [start_sniffing]
        rw [if_neg hv, if_neg (by simp [initState]), hoe]
        exact ⟨rfl, fun hc => SniffResult.noConfusion hc⟩
      | some ph =>
        simp only [start_sniffing]
        rw [if_neg hv, if_neg (by simp [initState]), hoe]
        refine ⟨rfl, ?_⟩
        show (if env.loopResult = 0 ∨ env.loopResult = -2 then
            SniffResult.SNIFF_OK else SniffResult.SNIFF_ERROR_PCAP_OPEN)
          ≠ SniffResult.SNIFF_ERROR_ALREADY_RUNNING
        by_cases hl : env.loopResult = 0 ∨ env.loopResult = -2
        · rw [if_pos hl]
          exact fun hc => SniffResult.noConfusion hc
        · rw [if_neg hl]
          exact fun hc => SniffResult.noConfusion hc

/-- Counterexample for C6: a `start_sniffing` call that returns through the
already-running exit path leaves the other session's Active state fully in
place, so `is_sniffing_active` still returns true after the call returns —
the claim that every exit path leaves `is_active()` false and the state Idle
is false on this path. -/
theorem start_already_running_leaves_active :
    (start_sniffing (some "en0") (some 5) ⟨some 10, 0⟩
        { handle := some 7, globalHandler := some 3, is_running := true }).1
      = SniffResult.SNIFF_ERROR_ALREADY_RUNNING ∧
    (start_sniffing (some "en0") (some 5) ⟨some 10, 0⟩
        { handle := some 7, globalHandler := some 3, is_running := true }).2
      = { handle := some 7, globalHandler := some 3, is_running := true } ∧
    is_sniffing_active
      (start_sniffing (some "en0") (some 5) ⟨some 10, 0⟩
        { handle := some 7, globalHandler := some 3, is_running := true }).2
      = true := by
  decide

/-- C6 (amended): after any `start_sniffing` call that begins in the Idle
state returns — by any exit path reachable from Idle: null parameter,
invalid device, open failure, or loop exit — the state is exactly Idle
(handler cleared, handle absent, running flag false), `is_sniffing_active`
returns false, the call did not return `SNIFF_ERROR_ALREADY_RUNNING`, and a
subsequent `start_sniffing` from the resulting state is never rejected with
`SNIFF_ERROR_ALREADY_RUNNING`; a call returning `SNIFF_ERROR_ALREADY_RUNNING`
(possible only when another session is already Active) instead leaves that
Active state untouched, as the counterexample records. -/
theorem start_from_idle_returns_idle (device : Option String)
    (handler : Option Nat) (env : EngineEnv) :
    (start_sniffing device handler env initState).2 = initState ∧
    is_sniffing_active (start_sniffing device handler env initState).2 = false ∧
    (start_sniffing device handler env initState).1
      ≠ SniffResult.SNIFF_ERROR_ALREADY_RUNNING ∧
    ∀ (dev2 : Option String) (han2 : Option Nat) (env2 : EngineEnv),
      (start_sniffing dev2 han2 env2
          (start_sniffing device handler env initState).2).1
        ≠ SniffResult.SNIFF_ERROR_ALREADY_RUNNING := by
  obtain ⟨hst, hres⟩ := start_from_init_state_and_result device handler env
  refine ⟨hst, by rw [hst]; rfl, hres, ?_⟩
  intro dev2 han2 env2
  rw [hst]
  exact (start_from_init_state_and_result dev2 han2 env2).2

/-- Witness for C6's amended theorem: a concrete start from Idle whose open
succeeds and whose loop ends by cancellation returns to the exact Idle
state. -/
theorem start_from_idle_returns_idle_witness :
    (start_sniffing (some "en0") (some 1) ⟨some 10, -2⟩ initState).2
      = initState :=
  (start_from_idle_returns_idle (some "en0") (some 1) ⟨some 10, -2⟩).1

lemma callback_no_handler (hdr : Option PcapPkthdr) (pkt : Option Nat)
    (st : SnifferState) (hno : st.globalHandler = none) :
    (packet_callback hdr pkt st).delivery = none := by
  match hdr, pkt with
  | none, _ => rfl
  | some hd, none => rfl
  | some hd, some p =>
    simp only [packet_callback]
    split
    · rfl
    · rw [hno]

/-- C8: once a session has been torn down (the loop exited and `start`'s
cleanup ran), the caller-supplied handler can never be invoked again: the
state `start_sniffing` leaves behind has no registered handler, and
`packet_callback` run in any such state delivers nothing, whatever event the
engine reports. -/
theorem no_delivery_after_teardown (d : String) (h : Nat) (env : EngineEnv)
    (st : SnifferState) (hv : is_valid_device_name (some d) = true)
    (hr : st.is_running = false) (ho : env.openResult.isSome = true) :
    (start_sniffing (some d) (some h) env st).2.globalHandler = none ∧
    ∀ (hdr : Option PcapPkthdr) (pkt : Option Nat),
      (packet_callback hdr pkt (start_sniffing (some d) (some h) env st).2).delivery
        = none := by
  obtain ⟨ph, hph⟩ := Option.isSome_iff_exists.mp ho
  have hstate : (start_sniffing (some d) (some h) env st).2
      = { handle := none, globalHandler := none, is_running := false } := by
    simp only [start_sniffing]
    rw [if_neg (by rw [hv]; simp), if_neg (by rw [hr]; simp), hph]
  refine ⟨by rw [hstate], ?_⟩
  intro hdr pkt
  exact callback_no_handler hdr pkt _ (by rw [hstate])

/-- Witness for C8: a concrete torn-down session (device "en0", handler 1,
open handle 10, loop ended by cancellation) followed by a concrete
in-range event delivers nothing. -/
theorem no_delivery_after_teardown_witness :
    (packet_callback (some ⟨100, 100⟩) (some 7)
        (start_sniffing (some "en0") (some 1) ⟨some 10, -2⟩ initState).2).delivery
      = none :=
  (no_delivery_after_teardown "en0" 1 ⟨some 10, -2⟩ initState
      (by decide) rfl rfl).2 (some ⟨100, 100⟩) (some 7)

/-- The program counter of a thread executing the shared-state part of
`start_sniffing` (after its argument validation, which touches no shared
state). Each value is one atomic step: the three `checkClaim`,
`failRollback`, `markRun` and `cleanup` steps are critical sections of
`state_mutex` (lines 98-109, 119-122, 130-132 and 139-158), while `openDev`
(line 115) writes the global `handle` outside any lock and `runLoop`
(line 136) is the blocking `pcap_loop` call. -/
inductive StartPhase where
  | checkClaim
  | openDev
  | failRollback
  | markRun
  | runLoop
  | cleanup
  | finished
deriving DecidableEq, Repr

/-- One thread executing `start_sniffing`: its program counter, its
(validated, non-NULL) handler argument, the engine's responses to it, the
result it will return, and two history flags — whether its
`pcap_open_live` returned a handle (`opened`) and whether it executed
`is_running = true` (`established`, i.e. it established the Active state). -/
structure StartThread where
  pc : StartPhase
  handlerArg : Nat
  openResult : Option Nat
  loopResult : Int
  res : Option SniffResult
  opened : Bool
  established : Bool
deriving DecidableEq, Repr

/-- One atomic step of a thread inside `start_sniffing`, acting on the
shared globals. Translated from PacketSniffer.c lines 98-158. -/
def stepStart (sh : SnifferState) (t : StartThread) : SnifferState × StartThread :=
  match t.pc with
  | .checkClaim =>
    if sh.is_running = true then
      (sh, { t with pc := .finished,
                    res := some .SNIFF_ERROR_ALREADY_RUNNING })
    else
      ({ sh with globalHandler := some t.handlerArg }, { t with pc := .openDev })
  | .openDev =>
    match t.openResult with
    | none => ({ sh with handle := none }, { t with pc := .failRollback })
    | some ph =>
      ({ sh with handle := some ph }, { t with pc := .markRun, opened := true })
  | .failRollback =>
    ({ sh with globalHandler := none, is_running := false },
     { t with pc := .finished, res := some .SNIFF_ERROR_PCAP_OPEN })
  | .markRun =>
    ({ sh with is_running := true }, { t with pc := .runLoop, established := true })
  | .runLoop => (sh, { t with pc := .cleanup })
  | .cleanup =>
    ({ handle := none, globalHandler := none, is_running := false },
     { t with pc := .finished,
              res := some (if t.loopResult = 0 ∨ t.loopResult = -2 then
                  SniffResult.SNIFF_OK else SniffResult.SNIFF_ERROR_PCAP_OPEN) })
  | .finished => (sh, t)

/-- Two threads concurrently inside `start_sniffing`, sharing the globals. -/
structure TwoThreads where
  shared : SnifferState
  tA : StartThread
  tB : StartThread
deriving DecidableEq, Repr

/-- Which thread the scheduler runs next. -/
inductive ThreadId where
  | A
  | B
deriving DecidableEq, Repr

/-- Run one atomic step of the chosen thread. -/
def stepSystem (s : TwoThreads) : ThreadId → TwoThreads
  | .A =>
    let p := stepStart s.shared s.tA
    ⟨p.1, p.2, s.tB⟩
  | .B =>
    let p := stepStart s.shared s.tB
    ⟨p.1, s.tA, p.2⟩

/-- Run a whole interleaving (a list of scheduler choices). -/
def runSchedule (s : TwoThreads) (sched : List ThreadId) : TwoThreads :=
  sched.foldl stepSystem s

/-- Two `start_sniffing` calls entering the locked region concurrently, from
the pristine initial state: handlers 1 and 2, both opens succeeding with
distinct handles, both loops ending by cancellation. -/
def raceStart : TwoThreads where
  shared := initState
  tA := ⟨.checkClaim, 1, some 10, -2, none, false, false⟩
  tB := ⟨.checkClaim, 2, some 20, -2, none, false, false⟩

/-- C1 fails on the code: under the interleaving A,B,A,B,A,B both concurrent
`start_sniffing` calls pass the `is_running` check (it is only set to true
after `pcap_open_live`, so neither call sees the other), both record a
handler, both open the engine, and both establish the Active state; neither
returns `SNIFF_ERROR_ALREADY_RUNNING`, so two sessions exist at once. This
contradicts the header's own "Thread-safe: can be called from multiple
threads" contract, which the claim restates. -/
theorem concurrent_start_race_both_establish :
    (runSchedule raceStart [.A, .B, .A, .B, .A, .B]).tA.established = true ∧
    (runSchedule raceStart [.A, .B, .A, .B, .A, .B]).tB.established = true ∧
    (runSchedule raceStart [.A, .B, .A, .B, .A, .B]).tA.opened = true ∧
    (runSchedule raceStart [.A, .B, .A, .B, .A, .B]).tB.opened = true ∧
    (runSchedule raceStart [.A, .B, .A, .B, .A, .B]).tA.res
        ≠ some SniffResult.SNIFF_ERROR_ALREADY_RUNNING ∧
    (runSchedule raceStart [.A, .B, .A, .B, .A, .B]).tB.res
        ≠ some SniffResult.SNIFF_ERROR_ALREADY_RUNNING ∧
    (runSchedule raceStart [.A, .B, .A, .B, .A, .B]).shared.is_running = true := by
  decide

/-- Counterexample for C2: the `checkClaim` critical section (lines 98-109)
records the handler and then releases the lock while the engine handle is
still NULL — at that observable point the handler is present and the handle
absent, refuting "both present or both absent" at every lock release. -/
theorem handler_present_handle_absent_point :
    (stepStart initState ⟨.checkClaim, 1, some 10, 0, none, false, false⟩).1
      = { handle := none, globalHandler := some 1, is_running := false } := by
  decide

/-- The inductive invariant behind the amended C2: whenever the running flag
is set, handler and handle are both present; the per-phase conjuncts record
what a thread mid-`start_sniffing` guarantees about the shared state. -/
def RunInv (sh : SnifferState) (t : StartThread) : Prop :=
  (sh.is_running = true →
      sh.globalHandler.isSome = true ∧ sh.handle.isSome = true) ∧
  (t.pc = .openDev → sh.is_running = false ∧ sh.globalHandler.isSome = true) ∧
  (t.pc = .failRollback → sh.is_running = false) ∧
  (t.pc = .markRun →
      sh.is_running = false ∧ sh.globalHandler.isSome = true ∧
        sh.handle.isSome = true)

lemma runInv_step (sh : SnifferState) (t : StartThread) (h : RunInv sh t) :
    RunInv (stepStart sh t).1 (stepStart sh t).2 := by
  obtain ⟨hI, hOpen, hFail, hMark⟩ := h
  obtain ⟨pc, hdl, op, lp, rs, ob, eb⟩ := t
  cases pc with
  | checkClaim =>
    by_cases hr : sh.is_running = true
    · simp only [stepStart, if_pos hr]
      exact ⟨hI, fun hc => StartPhase.noConfusion hc,
             fun hc => StartPhase.noConfusion hc,
             fun hc => StartPhase.noConfusion hc⟩
    · simp only [stepStart, if_neg hr]
      have hrf : sh.is_running = false := by
        cases hb : sh.is_running
        · rfl
        · exact absurd hb hr
      exact ⟨fun hc => absurd hc hr, fun _ => ⟨hrf, rfl⟩,
             fun hc => StartPhase.noConfusion hc,
             fun hc => StartPhase.noConfusion hc⟩
  | openDev =>
    obtain ⟨hrf, hgh⟩ := hOpen rfl
    cases hop : op with
    | none =>
      simp only [stepStart, hop]
      exact ⟨fun hc => absurd hc (by rw [hrf]; exact fun h => Bool.noConfusion h),
             fun hc => StartPhase.noConfusion hc, fun _ => hrf,
             fun hc => StartPhase.noConfusion hc⟩
    | some ph =>
      simp only [stepStart, hop]
      exact ⟨fun hc => absurd hc (by rw [hrf]; exact fun h => Bool.noConfusion h),
             fun hc => StartPhase.noConfusion hc,
             fun hc => StartPhase.noConfusion hc,
             fun _ => ⟨hrf, hgh, rfl⟩⟩
  | failRollback =>
    simp only [stepStart]
    exact ⟨fun hc => Bool.noConfusion hc,
           fun hc => StartPhase.noConfusion hc,
           fun hc => StartPhase.noConfusion hc,
           fun hc => StartPhase.noConfusion hc⟩
  | markRun =>
    obtain ⟨hrf, hgh, hhd⟩ := hMark rfl
    simp only [stepStart]
    exact ⟨fun _ => ⟨hgh, hhd⟩,
           fun hc => StartPhase.noConfusion hc,
           fun hc => StartPhase.noConfusion hc,
           fun hc => StartPhase.noConfusion hc⟩
  | runLoop =>
    simp only [stepStart]
    exact ⟨hI, fun hc => StartPhase.noConfusion hc,
           fun hc => StartPhase.noConfusion hc,
           fun hc => StartPhase.noConfusion hc⟩
  | cleanup =>
    simp only [stepStart]
    exact ⟨fun hc => Bool.noConfusion hc,
           fun hc => StartPhase.noConfusion hc,
           fun hc => StartPhase.noConfusion hc,
           fun hc => StartPhase.noConfusion hc⟩
  | finished =>
    simp only [stepStart]
    exact ⟨hI, fun hc => StartPhase.noConfusion hc,
           fun hc => StartPhase.noConfusion hc,
           fun hc => StartPhase.noConfusion hc⟩

/-- Iterate `stepStart` for a given number of atomic steps. -/
def runStart : SnifferState → StartThread → Nat → SnifferState × StartThread
  | sh, t, 0 => (sh, t)
  | sh, t, n + 1 => runStart (stepStart sh t).1 (stepStart sh t).2 n

lemma runInv_run (n : Nat) (sh : SnifferState) (t : StartThread)
    (h : RunInv sh t) : RunInv (runStart sh t n).1 (runStart sh t n).2 := by
  induction n generalizing sh t with
  | zero => exact h
  | succ m ih => exact ih _ _ (runInv_step sh t h)

/-- C2 (amended): at every observable point of a `start_sniffing` execution
from the pristine state — after every atomic lock-protected section and
every unlocked global write — the registered handler and the engine handle
are both present whenever the running flag is set; in the window where
`start` has recorded the handler but not yet established the handle and the
running flag (and in the open-failure rollback window), the handler may be
present while the handle is absent, as the counterexample records. -/
theorem running_implies_handler_and_handle (t0 : StartThread) (n : Nat)
    (hpc : t0.pc = .checkClaim) :
    (runStart initState t0 n).1.is_running = true →
      (runStart initState t0 n).1.globalHandler.isSome = true ∧
      (runStart initState t0 n).1.handle.isSome = true := by
  have h0 : RunInv initState t0 := by
    refine ⟨fun hc => Bool.noConfusion hc, ?_, ?_, ?_⟩ <;>
      · intro hc
        rw [hpc] at hc
        exact StartPhase.noConfusion hc
  exact (runInv_run n initState t0 h0).1

/-- Witness for C2's amended theorem: after three atomic steps (claim, open,
mark-running) of a concrete start whose open succeeds, the running flag is
set and handler and handle are indeed both present. -/
theorem running_implies_handler_and_handle_witness :
    (runStart initState ⟨.checkClaim, 1, some 10, -2, none, false, false⟩ 3).1.is_running
        = true ∧
    (runStart initState
        ⟨.checkClaim, 1, some 10, -2, none, false, false⟩ 3).1.globalHandler.isSome
        = true ∧
    (runStart initState
        ⟨.checkClaim, 1, some 10, -2, none, false, false⟩ 3).1.handle.isSome
        = true := by
  have h := running_implies_handler_and_handle
    ⟨.checkClaim, 1, some 10, -2, none, false, false⟩ 3 rfl (by decide)
  exact ⟨by decide, h.1, h.2⟩

end HammerTime
